import Mathlib

/-!
Verification development for the chest-imaging-diagnosis capstone frontend.

The definitions below are a shallow embedding of the JavaScript source:
the Axios/XMLHttpRequest API client in src/lib/api.js, the AuthContext in
src/context/AuthContext.jsx, the upload handlers in DiagnosisPage /
MedicalDiagnosisInterface, the LoginPage submit handler and the
HistoryPage rendering helpers.  Browser localStorage is modelled as a
total map from key strings to optional value strings; JSON values are
modelled by an inductive type with executable parse / stringify
functions mirroring the platform JSON.parse / JSON.stringify used by the
code (numbers are modelled as integers: no numeric literal relevant to
the verified properties is fractional, and floating point is outside the
model); network outcomes are passed in explicitly, and each service
function returns the list of HTTP requests it issues together with its
result, so that request-counting and frame properties are statable.
-/

set_option autoImplicit false

/-- JSON values as produced by JSON.parse.  Numbers are modelled as
integers (see the header comment). -/
inductive Json where
  | null : Json
  | bool : Bool → Json
  | num : Int → Json
  | str : String → Json
  | arr : List Json → Json
  | obj : List (String × Json) → Json
  deriving Inhabited

/-- Property lookup on a JS object: later occurrences of a key win
(as with duplicate keys in JSON.parse).  Returns none for a missing
property (JS undefined) and for non-object receivers. -/
def lookupField : List (String × Json) → String → Option Json
  | [], _ => none
  | (k, v) :: fs, key =>
    match lookupField fs key with
    | some w => some w
    | none => if k = key then some v else none

def Json.getField : Json → String → Option Json
  | .obj fs, key => lookupField fs key
  | _, _ => none

/-- JS truthiness of a JSON value (null, false, 0 and the empty string
are falsy; arrays and objects are always truthy). -/
def jsTruthy : Json → Bool
  | .null => false
  | .bool b => b
  | .num n => n ≠ 0
  | .str s => s ≠ ""
  | .arr _ => true
  | .obj _ => true

/-- JS truthiness of a possibly-undefined value. -/
def jsTruthyOpt : Option Json → Bool
  | none => false
  | some j => jsTruthy j

/-- JS truthiness of a string-or-null (the type of localStorage.getItem). -/
def jsTruthyStr : Option String → Bool
  | none => false
  | some s => s ≠ ""

/-- The JS disjunction v1 subjected to truthiness, with default d:
models expressions of the form a.b || d where a.b may be undefined. -/
def jsOr (o : Option Json) (d : Json) : Json :=
  match o with
  | some v => if jsTruthy v then v else d
  | none => d

mutual

/-- String(v) coercion of a JSON value (String of an array joins the
element strings with commas, null elements becoming empty; String of a
plain object is the usual object placeholder string). -/
def jsonToJsString : Json → String
  | Json.null => "null"
  | Json.bool b => cond b "true" "false"
  | Json.num n => toString n
  | Json.str s => s
  | Json.arr xs => String.intercalate "," (jsToStringList xs)
  | Json.obj _ => "[object Object]"

def jsToStringList : List Json → List String
  | [] => []
  | Json.null :: js => "" :: jsToStringList js
  | j :: js => jsonToJsString j :: jsToStringList js

end

/-- One escaped character of a JSON string literal. -/
def jsonEscapeChar (c : Char) : String :=
  if c = '"' then "\\\""
  else if c = '\\' then "\\\\"
  else if c = '\n' then "\\n"
  else if c = '\t' then "\\t"
  else if c = '\r' then "\\r"
  else String.singleton c

/-- A JSON string literal with its quotes. -/
def jsonQuote (s : String) : String :=
  "\"" ++ String.join (s.data.map jsonEscapeChar) ++ "\""

mutual

/-- JSON.stringify on a JSON value. -/
def jsonStringify : Json → String
  | Json.null => "null"
  | Json.bool b => cond b "true" "false"
  | Json.num n => toString n
  | Json.str s => jsonQuote s
  | Json.arr xs => "[" ++ String.intercalate "," (jsonStringifyList xs) ++ "]"
  | Json.obj fs => "\x7b" ++ String.intercalate "," (jsonStringifyFields fs) ++ "\x7d"

def jsonStringifyList : List Json → List String
  | [] => []
  | j :: js => jsonStringify j :: jsonStringifyList js

def jsonStringifyFields : List (String × Json) → List String
  | [] => []
  | (k, v) :: fs => (jsonQuote k ++ ":" ++ jsonStringify v) :: jsonStringifyFields fs

end

/-- String(v) on a possibly-undefined value. -/
def jsStringOfOpt : Option Json → String
  | some j => jsonToJsString j
  | none => "undefined"

/-- JSON.stringify on a possibly-undefined value, as coerced by
localStorage.setItem (JSON.stringify of undefined is undefined, which
setItem stores as the string undefined). -/
def stringifyOptJson : Option Json → String
  | some j => jsonStringify j
  | none => "undefined"

/-! ### An executable JSON.parse

A fuel-indexed recursive-descent parser.  It accepts the JSON subset
the application stores and reads back (null, booleans, integer
numbers, strings with simple escapes, arrays, objects); fractional and
exponent number forms are outside the model.  Error strings are the
model's own: only their presence, not their platform wording, is used
by the theorems. -/

def jsonWsChar (c : Char) : Bool :=
  c = ' ' || c = '\n' || c = '\t' || c = '\r'

def skipWs : List Char → List Char
  | [] => []
  | c :: cs => if jsonWsChar c then skipWs cs else c :: cs

/-- Strip an expected literal from the front of the input. -/
def stripLit : List Char → List Char → Option (List Char)
  | [], cs => some cs
  | _, [] => none
  | l :: ls, c :: cs => if l = c then stripLit ls cs else none

/-- Body of a JSON string literal, after the opening quote. -/
def parseStringBody : List Char → Option (String × List Char)
  | [] => none
  | c :: cs =>
    if c = '"' then some ("", cs)
    else if c = '\\' then
      match cs with
      | [] => none
      | e :: cs2 =>
        let dec : Option Char :=
          if e = '"' then some '"'
          else if e = '\\' then some '\\'
          else if e = '/' then some '/'
          else if e = 'n' then some '\n'
          else if e = 't' then some '\t'
          else if e = 'r' then some '\r'
          else none
        match dec with
        | none => none
        | some ch =>
          match parseStringBody cs2 with
          | none => none
          | some (s, rest) => some (String.singleton ch ++ s, rest)
    else
      match parseStringBody cs with
      | none => none
      | some (s, rest) => some (String.singleton c ++ s, rest)

def takeDigits : List Char → List Char × List Char
  | [] => ([], [])
  | c :: cs =>
    if c.isDigit then
      let (d, r) := takeDigits cs
      (c :: d, r)
    else ([], c :: cs)

def digitsToNat (ds : List Char) : Nat :=
  ds.foldl (fun a c => a * 10 + (c.toNat - 48)) 0

/-- Opening brace character (written by code to keep literals clean). -/
def lbrace : Char := Char.ofNat 123

/-- Closing brace character. -/
def rbrace : Char := Char.ofNat 125

/-- An integer JSON number: optional minus sign then digits, not
followed by a fraction or exponent marker. -/
def parseIntNumber (cs : List Char) : Option (Json × List Char) :=
  let (neg, cs1) :=
    match cs with
    | '-' :: rest => (true, rest)
    | _ => (false, cs)
  match takeDigits cs1 with
  | ([], _) => none
  | (ds, rest) =>
    match rest with
    | '.' :: _ => none
    | 'e' :: _ => none
    | 'E' :: _ => none
    | _ =>
      let n : Int := Int.ofNat (digitsToNat ds)
      some (Json.num (if neg then -n else n), rest)

mutual

def parseJsonF : Nat → List Char → Option (Json × List Char)
  | 0, _ => none
  | fuel + 1, cs0 =>
    let cs := skipWs cs0
    match cs with
    | [] => none
    | c :: rest =>
      if c = 'n' then (stripLit ['u', 'l', 'l'] rest).map (fun r => (Json.null, r))
      else if c = 't' then (stripLit ['r', 'u', 'e'] rest).map (fun r => (Json.bool true, r))
      else if c = 'f' then (stripLit ['a', 'l', 's', 'e'] rest).map (fun r => (Json.bool false, r))
      else if c = '"' then (parseStringBody rest).map (fun p => (Json.str p.1, p.2))
      else if c = '[' then
        match parseArrItems fuel (skipWs rest) with
        | none => none
        | some (xs, r) => some (Json.arr xs, r)
      else if c = lbrace then
        match parseObjItems fuel (skipWs rest) with
        | none => none
        | some (fs, r) => some (Json.obj fs, r)
      else parseIntNumber cs

/-- Items of an array, positioned after the opening bracket. -/
def parseArrItems : Nat → List Char → Option (List Json × List Char)
  | 0, _ => none
  | fuel + 1, cs =>
    match cs with
    | ']' :: rest => some ([], rest)
    | _ =>
      match parseJsonF fuel cs with
      | none => none
      | some (j, r1) =>
        match skipWs r1 with
        | ',' :: r2 =>
          match parseArrItems fuel (skipWs r2) with
          | none => none
          | some (xs, r3) => some (j :: xs, r3)
        | ']' :: r2 => some ([j], r2)
        | _ => none

/-- Members of an object, positioned after the opening brace. -/
def parseObjItems : Nat → List Char → Option (List (String × Json) × List Char)
  | 0, _ => none
  | fuel + 1, cs =>
    if cs.head? = some rbrace then some ([], cs.tail)
    else
      match cs with
      | '"' :: rest =>
        match parseStringBody rest with
        | none => none
        | some (k, r1) =>
          match skipWs r1 with
          | ':' :: r2 =>
            match parseJsonF fuel (skipWs r2) with
            | none => none
            | some (v, r3) =>
              match skipWs r3 with
              | ',' :: r4 =>
                match parseObjItems fuel (skipWs r4) with
                | none => none
                | some (fs, r5) => some ((k, v) :: fs, r5)
              | c :: r4 =>
                if c = rbrace then some ([(k, v)], r4) else none
              | [] => none
          | _ => none
      | _ => none

end

/-- JSON.parse on a string: errors model the SyntaxError JSON.parse
throws on malformed input. -/
def jsonParse (s : String) : Except String Json :=
  match parseJsonF (2 * s.length + 2) s.data with
  | some (j, rest) =>
    if skipWs rest = [] then Except.ok j
    else Except.error "Unexpected non-whitespace character after JSON data"
  | none => Except.error "Unexpected token in JSON"

/-! ### Browser localStorage -/

/-- localStorage: a map from keys to stored strings. -/
def Store := String → Option String

def getItem (s : Store) (k : String) : Option String := s k

def setItem (s : Store) (k : String) (v : String) : Store :=
  fun q => if q = k then some v else s q

def removeItem (s : Store) (k : String) : Store :=
  fun q => if q = k then none else s q

def emptyStore : Store := fun _ => none

/-- Default of VITE_JWT_STORAGE_KEY in src/lib/api.js. -/
def JWT_STORAGE_KEY : String := "mediscan_auth_token"

/-- Default of VITE_USER_STORAGE_KEY in src/lib/api.js. -/
def USER_STORAGE_KEY : String := "mediscan_user"

/-! ### The email regular expression

EMAIL_REGEX in src/lib/api.js anchors at both ends:
one or more local-part characters, an at sign, one or more domain
characters, a literal dot, then at least two letters.  The matcher
below decides the existence of such a decomposition (the boolean
disjunctions realise the backtracking of the regex engine). -/

/-- Character class of the local part. -/
def isLocalChar (c : Char) : Bool :=
  c.isAlphanum || c = '.' || c = '_' || c = '%' || c = '+' || c = '-'

/-- Character class of the domain part. -/
def isDomainChar (c : Char) : Bool :=
  c.isAlphanum || c = '.' || c = '-'

/-- The final top-level-domain run: at least two letters to the end. -/
def tldOk (t : List Char) : Bool :=
  decide (2 ≤ t.length) && t.all Char.isAlpha

/-- After at least one domain character: either the literal dot and the
final letter run, or one more domain character. -/
def domTail : List Char → Bool
  | [] => false
  | c :: cs => (c = '.' && tldOk cs) || (isDomainChar c && domTail cs)

/-- The part after the at sign. -/
def domMatch : List Char → Bool
  | [] => false
  | c :: cs => isDomainChar c && domTail cs

/-- After at least one local character: either the at sign and the
domain, or one more local character. -/
def localTail : List Char → Bool
  | [] => false
  | c :: cs => (c = '@' && domMatch cs) || (isLocalChar c && localTail cs)

def emailCharsMatch : List Char → Bool
  | [] => false
  | c :: cs => isLocalChar c && localTail cs

/-- EMAIL_REGEX.test. -/
def emailRegexTest (s : String) : Bool :=
  emailCharsMatch s.data

/-! ### Substring search

String.prototype.match with the pattern image.* succeeds exactly when
the needle occurs somewhere in the string (the trailing dot-star can
match the empty string); String.prototype.includes is the same
occurrence test. -/

def startsWithSeq : List Char → List Char → Bool
  | [], _ => true
  | _ :: _, [] => false
  | a :: as, b :: bs => a = b && startsWithSeq as bs

def containsSeq (needle : List Char) : List Char → Bool
  | [] => startsWithSeq needle []
  | c :: cs => startsWithSeq needle (c :: cs) || containsSeq needle cs

/-- s.includes needle, also ndl.match over an unanchored literal
pattern followed by dot-star. -/
def containsSubstr (s needle : String) : Bool :=
  containsSeq needle.data s.data

/-- file.type.match of the pattern image dot-star. -/
def typeMatchesImage (t : String) : Bool :=
  containsSubstr t "image"

/-! ### Requests and rejection values -/

/-- The File object of an upload input: its MIME type and byte size. -/
structure FileModel where
  type : String
  size : Nat
  deriving Repr, DecidableEq

/-- The body of an HTTP request: none, a JSON payload (serialized on
send), or multipart form data with one file field. -/
inductive ReqBody where
  | empty : ReqBody
  | json (j : Json) : ReqBody
  | formData (field : String) (file : FileModel) : ReqBody

/-- One HTTP request as issued by the client: method, path, query
parameters (the code percent-encodes values while interpolating the
URL; the query is kept structured here), the Authorization header if
one is set, and the body. -/
structure Request where
  method : String
  path : String
  query : List (String × String) := []
  authHeader : Option String := none
  body : ReqBody := ReqBody.empty

/-- A JS rejection value: either an Error instance (carrying a message)
or a plain value (a parsed JSON error body, say). -/
inductive JsErr where
  | errorObj (msg : String) : JsErr
  | plainJson (j : Json) : JsErr

/-- Property access on a rejection value: an Error instance has its
message and no response or request property; a plain value is read as
a JSON object. -/
def errField (e : JsErr) (k : String) : Option Json :=
  match e with
  | .errorObj m => if k = "message" then some (Json.str m) else none
  | .plainJson j => j.getField k

/-- String(error): Error instances stringify with the Error prefix. -/
def jsErrToString (e : JsErr) : String :=
  match e with
  | .errorObj m => "Error: " ++ m
  | .plainJson j => jsonToJsString j

/-- An object of the shape the services throw: a message property. -/
def msgObj (m : String) : Json :=
  Json.obj [("message", Json.str m)]

/-! ### The apiClient request interceptor (src/lib/api.js lines 58-72) -/

/-- The request interceptor: reads the token from localStorage and, when
it is truthy, sets the Authorization header to Bearer plus the token;
otherwise the config passes through unchanged. -/
def requestInterceptorOnFulfilled (store : Store) (config : Request) : Request :=
  let token := getItem store JWT_STORAGE_KEY
  if jsTruthyStr token then
    { config with authHeader := some ("Bearer " ++ token.getD "") }
  else config

/-- A request built and sent through the apiClient axios instance:
the interceptor runs on it before it goes out. -/
def apiClientRequest (store : Store) (method path : String) (body : ReqBody) : Request :=
  requestInterceptorOnFulfilled store
    { method := method, path := path, query := [], authHeader := none, body := body }

/-! ### Error normalization in the catch blocks -/

/-- The axios-style catch used by login, register and analyzeImage:
an error with a response throws response.data (or a default message
object), an error with a request throws the not-responding message,
anything else throws a message object from error.message (or the
setup default). -/
def axiosStyleCatch (e : JsErr) (respDefault reqMsg setupDefault : String) : Json :=
  if jsTruthyOpt (errField e "response") then
    jsOr ((errField e "response").bind (fun r => r.getField "data")) (msgObj respDefault)
  else if jsTruthyOpt (errField e "request") then
    msgObj reqMsg
  else
    msgObj (match errField e "message" with
      | some (Json.str m) => if m ≠ "" then m else setupDefault
      | _ => setupDefault)

/-- The optional-chaining catch used by forgotPassword and
resetPassword: throws error.response question-dot data, defaulting to
a message object. -/
def optionalChainCatch (e : JsErr) (defaultMsg : String) : Json :=
  jsOr ((errField e "response").bind (fun r => r.getField "data")) (msgObj defaultMsg)

/-! ### authService (src/lib/api.js lines 74-281) -/

namespace authService

/-- The storage writes of a successful login response: when
response.data.token is truthy the token is stored under the JWT key and
the JSON-stringified user under the user key; otherwise nothing is
written. -/
def loginStoreEffect (data : Json) (s : Store) : Store :=
  if jsTruthyOpt (data.getField "token") then
    setItem (setItem s JWT_STORAGE_KEY (jsStringOfOpt (data.getField "token")))
      USER_STORAGE_KEY (stringifyOptJson (data.getField "user"))
  else s

/-- The XMLHttpRequest issued by login: a POST to the emergency
direct-login endpoint, no Authorization header (only Content-Type is
set on the raw request), and a JSON body whose fields fall back to the
test account when the caller-supplied strings are falsy. -/
def loginRequest (email password : String) : Request :=
  { method := "POST"
    path := "/api/auth/direct-login"
    query := []
    authHeader := none
    body := ReqBody.json (Json.obj
      [("email", Json.str (if email = "" then "test@gmail.com" else email)),
       ("password", Json.str (if password = "" then "test123" else password))]) }

/-- Result of one service call: the requests it issued, and either the
returned response data or the thrown value. -/
structure ServiceResult where
  requests : List Request
  outcome : Except Json Json

/-- Result of login, which additionally updates localStorage. -/
structure LoginResult where
  requests : List Request
  outcome : Except Json Json
  store : Store

/-- authService.login: validate the email (the thrown validation Error
is transformed by the function's own catch), otherwise issue the
direct-login request; on a successful response perform the storage
writes and return response.data, on a rejection throw the normalized
error. -/
def login (email password : String) (store : Store) (net : Except JsErr Json) : LoginResult :=
  if emailRegexTest email = false then
    ⟨[], Except.error (axiosStyleCatch (JsErr.errorObj "Please enter a valid email address")
        "Login failed. Please check your credentials."
        "Server not responding. Please try again later."
        "Login failed. Please try again."), store⟩
  else
    match net with
    | Except.ok data =>
      ⟨[loginRequest email password], Except.ok data, loginStoreEffect data store⟩
    | Except.error e =>
      ⟨[loginRequest email password], Except.error (axiosStyleCatch e
          "Login failed. Please check your credentials."
          "Server not responding. Please try again later."
          "Login failed. Please try again."), store⟩

/-- The XMLHttpRequest issued by register: a POST to the emergency
direct-register endpoint with the name, email and password. -/
def registerRequest (name email password : String) : Request :=
  { method := "POST"
    path := "/api/auth/direct-register"
    query := []
    authHeader := none
    body := ReqBody.json (Json.obj
      [("name", Json.str name), ("email", Json.str email), ("password", Json.str password)]) }

/-- authService.register: validate the email, then the password length,
then issue the direct-register request; errors are normalized by the
catch block. -/
def register (name email password : String) (net : Except JsErr Json) : ServiceResult :=
  if emailRegexTest email = false then
    ⟨[], Except.error (axiosStyleCatch (JsErr.errorObj "Please enter a valid email address")
        "Registration failed. Please try again."
        "Server not responding. Please try again later."
        "Registration failed. Please try again.")⟩
  else if password.length < 6 then
    ⟨[], Except.error (axiosStyleCatch (JsErr.errorObj "Password must be at least 6 characters")
        "Registration failed. Please try again."
        "Server not responding. Please try again later."
        "Registration failed. Please try again.")⟩
  else
    match net with
    | Except.ok data => ⟨[registerRequest name email password], Except.ok data⟩
    | Except.error e =>
      ⟨[registerRequest name email password], Except.error (axiosStyleCatch e
          "Registration failed. Please try again."
          "Server not responding. Please try again later."
          "Registration failed. Please try again.")⟩

/-- authService.forgotPassword: validate the email, then POST through
the apiClient (so the interceptor runs); the catch rethrows
error.response question-dot data or a default message. -/
def forgotPassword (email : String) (store : Store) (net : Except JsErr Json) : ServiceResult :=
  if emailRegexTest email = false then
    ⟨[], Except.error (optionalChainCatch (JsErr.errorObj "Please enter a valid email address")
        "Password reset request failed. Please try again.")⟩
  else
    let req := apiClientRequest store "POST" "/api/auth/forgot-password"
      (ReqBody.json (Json.obj [("email", Json.str email)]))
    match net with
    | Except.ok data => ⟨[req], Except.ok data⟩
    | Except.error e =>
      ⟨[req], Except.error (optionalChainCatch e
          "Password reset request failed. Please try again.")⟩

/-- authService.resetPassword: validate the password length, then POST
through the apiClient; same catch shape as forgotPassword. -/
def resetPassword (token password : String) (store : Store) (net : Except JsErr Json) : ServiceResult :=
  if password.length < 6 then
    ⟨[], Except.error (optionalChainCatch (JsErr.errorObj "Password must be at least 6 characters")
        "Password reset failed. Please try again.")⟩
  else
    let req := apiClientRequest store "POST" "/api/auth/reset-password"
      (ReqBody.json (Json.obj [("token", Json.str token), ("password", Json.str password)]))
    match net with
    | Except.ok data => ⟨[req], Except.ok data⟩
    | Except.error e =>
      ⟨[req], Except.error (optionalChainCatch e
          "Password reset failed. Please try again.")⟩

/-- authService.logout: remove the JWT key, then the user key. -/
def logout (s : Store) : Store :=
  removeItem (removeItem s JWT_STORAGE_KEY) USER_STORAGE_KEY

/-- authService.getCurrentUser: parse the stored user string when it is
truthy, otherwise return null (a SyntaxError from JSON.parse
propagates, hence the Except). -/
def getCurrentUser (s : Store) : Except String Json :=
  match getItem s USER_STORAGE_KEY with
  | some userStr => if userStr ≠ "" then jsonParse userStr else Except.ok Json.null
  | none => Except.ok Json.null

end authService

/-! ### medicalService (src/lib/api.js lines 283-488) -/

namespace medicalService

/-- JSON.parse of localStorage.getItem of the user key, defaulted with
a JS disjunction to the empty object: a missing item parses (as the
null string) to null and defaults to the empty object; a stored string
is parsed, a falsy result defaults to the empty object, and a
SyntaxError propagates. -/
def storedUser (store : Store) : Except String Json :=
  match getItem store USER_STORAGE_KEY with
  | none => Except.ok (Json.obj [])
  | some s =>
    match jsonParse s with
    | Except.error e => Except.error e
    | Except.ok j => Except.ok (if jsTruthy j then j else Json.obj [])

/-- currentUser.id defaulted with a JS disjunction to the test user id
(a template literal coerces the id to a string). -/
def userIdFrom (u : Json) : String :=
  match u.getField "id" with
  | some v => if jsTruthy v then jsonToJsString v else "test_user"
  | none => "test_user"

/-- The user id read from storage for emergency endpoints. -/
def storedUserIdE (store : Store) : Except String String :=
  (storedUser store).map userIdFrom

/-- The XMLHttpRequest issued by analyzeImage: a POST of the form data
to the emergency analyze endpoint with the user id as a query
parameter; no Authorization header is set on the raw request. -/
def analyzeRequest (file : FileModel) (uid : String) : Request :=
  { method := "POST"
    path := "/api/ml/emergency-analyze"
    query := [("user_id", uid)]
    authHeader := none
    body := ReqBody.formData "image" file }

/-- medicalService.analyzeImage: build the form data (the token is read
from storage but never used), compute the user id (a SyntaxError while
reading it rejects the promise before any request is opened), send the
upload to the emergency endpoint and normalize errors with the same
catch shape as login and register. -/
def analyzeImage (file : FileModel) (store : Store) (net : Except JsErr Json) : authService.ServiceResult :=
  match storedUserIdE store with
  | Except.error e =>
    ⟨[], Except.error (axiosStyleCatch (JsErr.errorObj e)
        "Image analysis failed. Please try again."
        "Server not responding. Please try again later."
        "Image analysis failed. Please try again.")⟩
  | Except.ok uid =>
    match net with
    | Except.ok data => ⟨[analyzeRequest file uid], Except.ok data⟩
    | Except.error e =>
      ⟨[analyzeRequest file uid], Except.error (axiosStyleCatch e
          "Image analysis failed. Please try again."
          "Server not responding. Please try again later."
          "Image analysis failed. Please try again.")⟩

/-- The object getHistory returns when every method failed. -/
def historyFallback (e : JsErr) : Json :=
  Json.obj [("status", Json.str "error"), ("analyses", Json.arr []),
    ("count", Json.num 0), ("message", Json.str (jsErrToString e))]

/-- The XMLHttpRequest issued against the emergency history endpoint. -/
def emergencyHistoryRequest (uid : String) : Request :=
  { method := "GET"
    path := "/api/ml/emergency-history"
    query := [("user_id", uid)]
    authHeader := none
    body := ReqBody.empty }

/-- medicalService.getHistory: first the authenticated history request
through the apiClient; if it fails, read the stored user id and fall
back to one emergency-history request; when everything fails, return
the fallback object rather than throwing (the result type has no
error case: the outer catch converts every failure to the fallback
object, so the function is total at its interface). -/
def getHistory (store : Store) (authNet : Except JsErr Json) (emergencyNet : Except JsErr Json) :
    List Request × Json :=
  let authReq := apiClientRequest store "GET" "/api/ml/history" ReqBody.empty
  match authNet with
  | Except.ok data => ([authReq], data)
  | Except.error _ =>
    match storedUserIdE store with
    | Except.error e => ([authReq], historyFallback (JsErr.errorObj e))
    | Except.ok uid =>
      match emergencyNet with
      | Except.ok data => ([authReq, emergencyHistoryRequest uid], data)
      | Except.error e => ([authReq, emergencyHistoryRequest uid], historyFallback e)

end medicalService

/-! ### AuthContext (src/context/AuthContext.jsx) -/

/-- The in-memory state held by the AuthProvider. -/
structure AuthState where
  currentUser : Option Json
  loading : Bool
  error : Option String

namespace AuthContext

/-- The context logout: delegate to authService.logout, then set the
current user to null. -/
def logout (store : Store) (st : AuthState) : Store × AuthState :=
  (authService.logout store, { st with currentUser := none })

end AuthContext

/-! ### DiagnosisPage (in src/components/MLTestComponent.jsx) and
MedicalDiagnosisInterface (in src/components/ApiStatusIndicator.jsx)
upload handlers -/

/-- The component state of DiagnosisPage (error initialised to the
empty string). -/
structure DiagnosisState where
  uploadedImage : Option String
  imageFile : Option FileModel
  analysisResults : Option Json
  error : String

namespace DiagnosisPage

/-- DiagnosisPage.handleImageUpload on a chosen file: reject non-image
MIME types, then files over ten megabytes, else clear the error and
store the file (the FileReader then loads the preview
asynchronously). -/
def handleImageUpload (file : FileModel) (s : DiagnosisState) : DiagnosisState :=
  if typeMatchesImage file.type = false then
    { s with error := "Please select an image file (JPEG, PNG)" }
  else if file.size > 10 * 1024 * 1024 then
    { s with error := "File size exceeds 10MB limit" }
  else
    { s with error := "", imageFile := some file }

end DiagnosisPage

/-- The component state of MedicalDiagnosisInterface (error initialised
to null, hence optional). -/
structure MDIState where
  uploadedImage : Option String
  imageFile : Option FileModel
  analysisResult : Option Json
  error : Option String

namespace MedicalDiagnosisInterface

/-- MedicalDiagnosisInterface.handleImageUpload: the same checks as
DiagnosisPage, with the error cleared to null on success. -/
def handleImageUpload (file : FileModel) (s : MDIState) : MDIState :=
  if typeMatchesImage file.type = false then
    { s with error := some "Please select an image file (JPEG, PNG)" }
  else if file.size > 10 * 1024 * 1024 then
    { s with error := some "File size exceeds 10MB limit" }
  else
    { s with error := none, imageFile := some file }

end MedicalDiagnosisInterface

/-! ### HistoryPage (src/pages/HistoryPage.jsx) -/

namespace HistoryPage

/-- The inline SVG placeholder data URI used when a record carries no
image URL (fetchHistory, line 41 of the page). -/
def fallbackImageUrl : String :=
  "data:image/svg+xml;charset=UTF-8,%3Csvg%20xmlns%3D%22http%3A%2F%2Fwww.w3.org%2F2000%2Fsvg%22%20width%3D%22100%22%20height%3D%22100%22%20viewBox%3D%220%200%20100%20100%22%3E%3Crect%20fill%3D%22%23f0f0f0%22%20width%3D%22100%22%20height%3D%22100%22%2F%3E%3Ctext%20fill%3D%22%23888888%22%20font-family%3D%22Arial%2CSans-serif%22%20font-size%3D%2212%22%20x%3D%2250%25%22%20y%3D%2250%25%22%20text-anchor%3D%22middle%22%20dy%3D%22.3em%22%3EX-Ray%3C%2Ftext%3E%3C%2Fsvg%3E"

/-- analysis.image_url defaulted with a JS disjunction to the
placeholder: an absent or empty URL renders as the placeholder. -/
def renderedImageUrl (image_url : Option String) : String :=
  match image_url with
  | some u => if u ≠ "" then u else fallbackImageUrl
  | none => fallbackImageUrl

/-- The data URI literal written inside the img onError handler
(line 194 of the page; the source repeats the literal). -/
def imgOnErrorSrc : String :=
  "data:image/svg+xml;charset=UTF-8,%3Csvg%20xmlns%3D%22http%3A%2F%2Fwww.w3.org%2F2000%2Fsvg%22%20width%3D%22100%22%20height%3D%22100%22%20viewBox%3D%220%200%20100%20100%22%3E%3Crect%20fill%3D%22%23f0f0f0%22%20width%3D%22100%22%20height%3D%22100%22%2F%3E%3Ctext%20fill%3D%22%23888888%22%20font-family%3D%22Arial%2CSans-serif%22%20font-size%3D%2212%22%20x%3D%2250%25%22%20y%3D%2250%25%22%20text-anchor%3D%22middle%22%20dy%3D%22.3em%22%3EX-Ray%3C%2Ftext%3E%3C%2Fsvg%3E"

/-- The img onError handler: whatever the current source was, replace
it with the placeholder data URI. -/
def imgOnError (currentSrc : String) : String :=
  let _ := currentSrc
  imgOnErrorSrc

end HistoryPage

/-! ### LoginPage.handleSubmit (src/pages/LoginPage.jsx lines 170-216) -/

namespace LoginPage

/-- The catch block of handleSubmit: a message containing the word
timeout maps to the connection-timed-out text, one containing Network
Error to the network-error text, any other truthy message is shown
as-is, and a missing or falsy message falls back to the generic
failed-to-login text. -/
def catchMsg (e : JsErr) : String :=
  match errField e "message" with
  | some (Json.str m) =>
    if m ≠ "" then
      if containsSubstr m "timeout" then
        "Connection to server timed out. Please check your internet connection and try again."
      else if containsSubstr m "Network Error" then
        "Network error. Please check if the server is running and try again."
      else m
    else "Failed to login. Please check your credentials."
  | _ => "Failed to login. Please check your credentials."

/-- The observable result of one handleSubmit run: the error text shown
(empty when none), whether navigation to the redirect target happened,
the time at which the handler stopped waiting, and the final
localStorage state. -/
structure SubmitResult where
  error : String
  navigated : Bool
  finishedAt : Nat
  store : Store

/-- LoginPage.handleSubmit: validate the email, then race the context
login against a fifteen-second delay promise.  loginTime is the time at
which the underlying login settles.  When the delay wins the race the
handler stops waiting at fifteen seconds and reports the timeout
rejection through its catch block, but nothing aborts the request: its
localStorage effect still takes place when it settles, which the model
registers by taking the store from the completed login in every
branch. -/
def handleSubmit (email password : String) (store : Store) (net : Except JsErr Json)
    (loginTime : Nat) : SubmitResult :=
  if emailRegexTest email = false then
    ⟨"Please enter a valid email address", false, 0, store⟩
  else
    let L := authService.login email password store net
    if loginTime < 15000 then
      match L.outcome with
      | Except.ok _ => ⟨"", true, loginTime, L.store⟩
      | Except.error e => ⟨catchMsg (JsErr.plainJson e), false, loginTime, L.store⟩
    else
      ⟨catchMsg (JsErr.errorObj "Login request timed out. Please try again."),
        false, 15000, L.store⟩

end LoginPage

/-! ### Shared lemmas -/

theorem jwt_ne_user_key : JWT_STORAGE_KEY ≠ USER_STORAGE_KEY := by decide

theorem emailRegexTest_nonempty (s : String) (h : emailRegexTest s = true) : s ≠ "" := by
  intro h0
  subst h0
  exact absurd h (by decide)

theorem apiClientRequest_path (store : Store) (m p : String) (b : ReqBody) :
    (apiClientRequest store m p b).path = p := by
  by_cases h : jsTruthyStr (getItem store JWT_STORAGE_KEY) <;>
    simp [apiClientRequest, requestInterceptorOnFulfilled, h]

/-! ### The claims -/

/-- C1: in both upload handlers, a chosen file whose MIME type does not
contain image yields the select-an-image error with the rest of the
state unchanged (regardless of its size, so the MIME check comes
first); an image over ten megabytes yields the size error with the rest
of the state unchanged; any other image clears the error and is stored
as the image file. -/
theorem C1_upload_validation (file : FileModel) (s : DiagnosisState) (t : MDIState) :
    (typeMatchesImage file.type = false →
      DiagnosisPage.handleImageUpload file s =
        { s with error := "Please select an image file (JPEG, PNG)" } ∧
      MedicalDiagnosisInterface.handleImageUpload file t =
        { t with error := some "Please select an image file (JPEG, PNG)" }) ∧
    (typeMatchesImage file.type = true → file.size > 10 * 1024 * 1024 →
      DiagnosisPage.handleImageUpload file s =
        { s with error := "File size exceeds 10MB limit" } ∧
      MedicalDiagnosisInterface.handleImageUpload file t =
        { t with error := some "File size exceeds 10MB limit" }) ∧
    (typeMatchesImage file.type = true → ¬ file.size > 10 * 1024 * 1024 →
      DiagnosisPage.handleImageUpload file s =
        { s with error := "", imageFile := some file } ∧
      MedicalDiagnosisInterface.handleImageUpload file t =
        { t with error := none, imageFile := some file }) := by
  refine ⟨fun h => ?_, fun h h2 => ?_, fun h h2 => ?_⟩
  · simp [DiagnosisPage.handleImageUpload, MedicalDiagnosisInterface.handleImageUpload, h]
  · simp [DiagnosisPage.handleImageUpload, MedicalDiagnosisInterface.handleImageUpload, h, h2]
  · simp [DiagnosisPage.handleImageUpload, MedicalDiagnosisInterface.handleImageUpload, h, h2]

/-- C1 witness: a twenty-megabyte plain-text file is rejected with the
MIME message, not the size message. -/
theorem C1_upload_validation_witness :
    typeMatchesImage "text/plain" = false ∧
    DiagnosisPage.handleImageUpload ⟨"text/plain", 20971520⟩ ⟨none, none, none, ""⟩ =
      { (⟨none, none, none, ""⟩ : DiagnosisState) with
          error := "Please select an image file (JPEG, PNG)" } :=
  ⟨by decide,
    ((C1_upload_validation ⟨"text/plain", 20971520⟩ ⟨none, none, none, ""⟩
        ⟨none, none, none, none⟩).1 (by decide)).1⟩

/-- C4: the apiClient request interceptor sets the Authorization header
to Bearer plus the stored token exactly when a truthy token sits under
the JWT storage key, and otherwise passes the request configuration
through unchanged. -/
theorem C4_interceptor_token_injection (store : Store) (config : Request) :
    ((∃ tk, getItem store JWT_STORAGE_KEY = some tk ∧ tk ≠ "") →
      requestInterceptorOnFulfilled store config =
        { config with
            authHeader := some ("Bearer " ++ (getItem store JWT_STORAGE_KEY).getD "") }) ∧
    ((¬ ∃ tk, getItem store JWT_STORAGE_KEY = some tk ∧ tk ≠ "") →
      requestInterceptorOnFulfilled store config = config) := by
  constructor
  · rintro ⟨tk, htk, hne⟩
    simp [requestInterceptorOnFulfilled, htk, jsTruthyStr, hne]
  · intro h
    unfold requestInterceptorOnFulfilled
    cases hg : getItem store JWT_STORAGE_KEY with
    | none => simp [jsTruthyStr]
    | some tk =>
      have he : tk = "" := by
        by_contra hne
        exact h ⟨tk, hg, hne⟩
      simp [jsTruthyStr, he]

/-- C4 witness: with a stored token the header is attached. -/
theorem C4_interceptor_token_injection_witness :
    (∃ tk, getItem (setItem emptyStore JWT_STORAGE_KEY "tok123") JWT_STORAGE_KEY = some tk ∧
      tk ≠ "") ∧
    requestInterceptorOnFulfilled (setItem emptyStore JWT_STORAGE_KEY "tok123")
        { method := "GET", path := "/api/ml/history" } =
      { ({ method := "GET", path := "/api/ml/history" } : Request) with
          authHeader := some ("Bearer " ++
            (getItem (setItem emptyStore JWT_STORAGE_KEY "tok123") JWT_STORAGE_KEY).getD "") } :=
  ⟨⟨"tok123", by decide, by decide⟩,
    (C4_interceptor_token_injection (setItem emptyStore JWT_STORAGE_KEY "tok123")
        { method := "GET", path := "/api/ml/history" }).1 ⟨"tok123", by decide, by decide⟩⟩

/-- C8: a history record without an image URL renders the inline SVG
placeholder data URI, and the img onError handler replaces a failing
source with that same data URI. -/
theorem C8_history_image_placeholder (u : Option String) (src : String) :
    (u = none → HistoryPage.renderedImageUrl u = HistoryPage.fallbackImageUrl) ∧
    HistoryPage.imgOnError src = HistoryPage.fallbackImageUrl ∧
    HistoryPage.imgOnErrorSrc = HistoryPage.fallbackImageUrl := by
  refine ⟨fun h => ?_, rfl, rfl⟩
  subst h
  rfl

/-- C8 witness: the absent-URL case at a concrete record. -/
theorem C8_history_image_placeholder_witness :
    (none : Option String) = none ∧
    HistoryPage.renderedImageUrl none = HistoryPage.fallbackImageUrl :=
  ⟨rfl, (C8_history_image_placeholder none "broken.png").1 rfl⟩

/-- C2: register throws the invalid-email message when the email fails
EMAIL_REGEX, and otherwise the short-password message when the password
has fewer than six characters, in both cases issuing no request; the
same email check guards login and the same password-length check guards
resetPassword, each without issuing a request. -/
theorem C2_client_side_validation (name email password tok : String) (s : Store)
    (net : Except JsErr Json) :
    (emailRegexTest email = false →
      authService.register name email password net =
        ⟨[], Except.error (msgObj "Please enter a valid email address")⟩) ∧
    (emailRegexTest email = true → password.length < 6 →
      authService.register name email password net =
        ⟨[], Except.error (msgObj "Password must be at least 6 characters")⟩) ∧
    (emailRegexTest email = false →
      (authService.login email password s net).requests = [] ∧
      (authService.login email password s net).outcome =
        Except.error (msgObj "Please enter a valid email address")) ∧
    (password.length < 6 →
      authService.resetPassword tok password s net =
        ⟨[], Except.error (msgObj "Password reset failed. Please try again.")⟩) := by
  refine ⟨fun h => ?_, fun h h2 => ?_, fun h => ?_, fun h => ?_⟩
  · simp [authService.register, h]
    rfl
  · simp [authService.register, h, h2]
    rfl
  · constructor
    · simp [authService.login, h]
    · simp [authService.login, h]
      rfl
  · simp [authService.resetPassword, h]
    rfl

/-- C2 witness: a malformed email and a short password at concrete
inputs. -/
theorem C2_client_side_validation_witness :
    emailRegexTest "not-an-email" = false ∧
    authService.register "Sam" "not-an-email" "123456" (Except.ok Json.null) =
      ⟨[], Except.error (msgObj "Please enter a valid email address")⟩ ∧
    ("123".length < 6 ∧
      authService.resetPassword "rtok" "123" emptyStore (Except.ok Json.null) =
        ⟨[], Except.error (msgObj "Password reset failed. Please try again.")⟩) :=
  ⟨by decide,
    (C2_client_side_validation "Sam" "not-an-email" "123456" "rtok" emptyStore
        (Except.ok Json.null)).1 (by decide),
    ⟨by decide,
      (C2_client_side_validation "Sam" "not-an-email" "123" "rtok" emptyStore
          (Except.ok Json.null)).2.2.2 (by decide)⟩⟩

/-- C3: a successful login whose response carries a truthy token writes
the token under the JWT storage key and the JSON-stringified user under
the user storage key and touches no other key; logout removes exactly
those two keys and touches no other key; after logout getCurrentUser
returns null and the AuthContext logout sets the current user to
null. -/
theorem C3_session_lifecycle (email password : String) (data : Json) (s : Store)
    (st : AuthState) (net : Except JsErr Json) (k : String) :
    (emailRegexTest email = true → net = Except.ok data →
      (authService.login email password s net).store = authService.loginStoreEffect data s) ∧
    (jsTruthyOpt (data.getField "token") = true →
      authService.loginStoreEffect data s JWT_STORAGE_KEY =
        some (jsStringOfOpt (data.getField "token")) ∧
      authService.loginStoreEffect data s USER_STORAGE_KEY =
        some (stringifyOptJson (data.getField "user")) ∧
      (k ≠ JWT_STORAGE_KEY → k ≠ USER_STORAGE_KEY →
        authService.loginStoreEffect data s k = s k)) ∧
    (authService.logout s JWT_STORAGE_KEY = none ∧
      authService.logout s USER_STORAGE_KEY = none ∧
      (k ≠ JWT_STORAGE_KEY → k ≠ USER_STORAGE_KEY → authService.logout s k = s k)) ∧
    authService.getCurrentUser (authService.logout s) = Except.ok Json.null ∧
    AuthContext.logout s st = (authService.logout s, { st with currentUser := none }) := by
  refine ⟨fun h hnet => ?_, fun htok => ⟨?_, ?_, fun hk1 hk2 => ?_⟩, ⟨?_, ?_, fun hk1 hk2 => ?_⟩,
    ?_, rfl⟩
  · subst hnet
    simp [authService.login, h]
  · simp [authService.loginStoreEffect, htok, setItem, jwt_ne_user_key,
      (Ne.symm jwt_ne_user_key)]
  · simp [authService.loginStoreEffect, htok, setItem]
  · simp [authService.loginStoreEffect, htok, setItem, hk1, hk2]
  · simp [authService.logout, removeItem, (Ne.symm jwt_ne_user_key)]
  · simp [authService.logout, removeItem]
  · simp [authService.logout, removeItem, hk1, hk2]
  · simp [authService.getCurrentUser, authService.logout, getItem, removeItem]

/-- C3 witness: a concrete login response and a concrete third key. -/
theorem C3_session_lifecycle_witness :
    jsTruthyOpt ((Json.obj [("token", Json.str "tk"), ("user", Json.obj [("id", Json.str "u1")])]).getField "token") = true ∧
    authService.loginStoreEffect
        (Json.obj [("token", Json.str "tk"), ("user", Json.obj [("id", Json.str "u1")])])
        emptyStore JWT_STORAGE_KEY =
      some (jsStringOfOpt ((Json.obj [("token", Json.str "tk"),
        ("user", Json.obj [("id", Json.str "u1")])]).getField "token")) ∧
    authService.getCurrentUser (authService.logout emptyStore) = Except.ok Json.null :=
  ⟨by decide,
    ((C3_session_lifecycle "a@b.co" "pw"
        (Json.obj [("token", Json.str "tk"), ("user", Json.obj [("id", Json.str "u1")])])
        emptyStore ⟨none, false, none⟩ (Except.ok Json.null) "other_key").2.1 (by decide)).1,
    (C3_session_lifecycle "a@b.co" "pw"
        (Json.obj [("token", Json.str "tk"), ("user", Json.obj [("id", Json.str "u1")])])
        emptyStore ⟨none, false, none⟩ (Except.ok Json.null) "other_key").2.2.2.1⟩

/-- C10: under the guard EMAIL_REGEX.test(email), which only accepts
nonempty strings, the email field of the direct-login request body is
exactly the caller-supplied email: the test-account default is
unreachable for the email field. -/
theorem C10_login_email_default_unreachable (email password : String)
    (h : emailRegexTest email = true) :
    email ≠ "" ∧
    (if email = "" then "test@gmail.com" else email) = email ∧
    (authService.loginRequest email password).body =
      ReqBody.json (Json.obj
        [("email", Json.str email),
         ("password", Json.str (if password = "" then "test123" else password))]) := by
  have hne : email ≠ "" := emailRegexTest_nonempty email h
  refine ⟨hne, if_neg hne, ?_⟩
  simp [authService.loginRequest, hne]

/-- C10 witness: a concrete valid email. -/
theorem C10_login_email_default_unreachable_witness :
    emailRegexTest "a@b.co" = true ∧
    (authService.loginRequest "a@b.co" "").body =
      ReqBody.json (Json.obj
        [("email", Json.str "a@b.co"),
         ("password", Json.str (if ("" : String) = "" then "test123" else ""))]) :=
  ⟨by decide, (C10_login_email_default_unreachable "a@b.co" "" (by decide)).2.2⟩

/-- C5 counterexample: when the authenticated history request fails,
getHistory issues a second request (to the emergency-history
endpoint), so a single invocation of an API-client operation can issue
more than one HTTP request. -/
theorem C5_counterexample :
    ((medicalService.getHistory emptyStore
        (Except.error (JsErr.errorObj "Network error occurred"))
        (Except.ok (Json.obj []))).1).length = 2 := by
  rfl

/-- C5 amended: login, register, forgotPassword, resetPassword and
analyzeImage each issue at most one request per invocation; getHistory
issues at most two — exactly one when the authenticated request
succeeds, and on its failure one fallback request to a different
endpoint, never repeating an endpoint. -/
theorem C5_request_budget (name email password tok : String) (file : FileModel) (store : Store)
    (net authNet emNet : Except JsErr Json) :
    (authService.login email password store net).requests.length ≤ 1 ∧
    (authService.register name email password net).requests.length ≤ 1 ∧
    (authService.forgotPassword email store net).requests.length ≤ 1 ∧
    (authService.resetPassword tok password store net).requests.length ≤ 1 ∧
    (medicalService.analyzeImage file store net).requests.length ≤ 1 ∧
    (medicalService.getHistory store authNet emNet).1.length ≤ 2 ∧
    (∀ data, authNet = Except.ok data →
      (medicalService.getHistory store authNet emNet).1.length = 1) ∧
    ((medicalService.getHistory store authNet emNet).1.map Request.path).Nodup := by
  refine ⟨?_, ?_, ?_, ?_, ?_, ?_, ?_, ?_⟩
  · unfold authService.login
    split
    · simp
    · cases net <;> simp
  · unfold authService.register
    split
    · simp
    · split
      · simp
      · cases net <;> simp
  · unfold authService.forgotPassword
    split
    · simp
    · cases net <;> simp
  · unfold authService.resetPassword
    split
    · simp
    · cases net <;> simp
  · unfold medicalService.analyzeImage
    split
    · simp
    · cases net <;> simp
  · unfold medicalService.getHistory
    cases authNet with
    | ok data => simp
    | error e =>
      cases medicalService.storedUserIdE store with
      | error pe => simp
      | ok uid => cases emNet <;> simp
  · intro data hnet
    subst hnet
    simp [medicalService.getHistory]
  · unfold medicalService.getHistory
    cases authNet with
    | ok data => simp
    | error e =>
      cases h : medicalService.storedUserIdE store with
      | error pe => simp
      | ok uid =>
        cases emNet <;>
          simp [apiClientRequest_path, medicalService.emergencyHistoryRequest]

/-- C5 witness for the amended claim: a successful authenticated
history call issues exactly one request. -/
theorem C5_request_budget_witness :
    (medicalService.getHistory emptyStore (Except.ok Json.null) (Except.ok Json.null)).1.length = 1 :=
  (C5_request_budget "Sam" "a@b.co" "password" "tok" ⟨"image/png", 1⟩ emptyStore
      (Except.ok Json.null) (Except.ok Json.null) (Except.ok Json.null)).2.2.2.2.2.2.1
    Json.null rfl

/-- C6: analyzeImage sends its one upload to the emergency analyze
endpoint with the stored user id (or the test user id when nothing is
stored) as the user_id query parameter and without any Authorization
header whatever the store holds; and login posts to the emergency
direct-login endpoint, not to the normal login endpoint. -/
theorem C6_emergency_endpoints (file : FileModel) (store : Store) (net : Except JsErr Json)
    (email password : String) :
    (∀ uid, medicalService.storedUserIdE store = Except.ok uid →
      (medicalService.analyzeImage file store net).requests =
        [medicalService.analyzeRequest file uid]) ∧
    (∀ uid, medicalService.analyzeRequest file uid =
      { method := "POST", path := "/api/ml/emergency-analyze", query := [("user_id", uid)],
        authHeader := none, body := ReqBody.formData "image" file }) ∧
    (getItem store USER_STORAGE_KEY = none →
      medicalService.storedUserIdE store = Except.ok "test_user") ∧
    (∀ str u i, getItem store USER_STORAGE_KEY = some str → jsonParse str = Except.ok u →
      u.getField "id" = some (Json.str i) → i ≠ "" →
      medicalService.storedUserIdE store = Except.ok i) ∧
    (emailRegexTest email = true →
      (authService.login email password store net).requests =
        [authService.loginRequest email password]) ∧
    (authService.loginRequest email password).path = "/api/auth/direct-login" ∧
    "/api/auth/direct-login" ≠ "/api/auth/login" := by
  refine ⟨fun uid huid => ?_, fun uid => rfl, fun hnone => ?_, fun str u i hget hparse hid hne => ?_,
    fun h => ?_, rfl, by decide⟩
  · unfold medicalService.analyzeImage
    rw [huid]
    cases net <;> rfl
  · simp [medicalService.storedUserIdE, medicalService.storedUser, hnone, Except.map,
      medicalService.userIdFrom, Json.getField, lookupField]
  · have hobj : jsTruthy u = true := by
      cases u <;> simp_all [Json.getField, jsTruthy]
    have hcu : medicalService.storedUser store = Except.ok u := by
      simp [medicalService.storedUser, hget, hparse, hobj]
    simp [medicalService.storedUserIdE, hcu, Except.map,
      medicalService.userIdFrom, hid, jsTruthy, hne, jsonToJsString]
  · unfold authService.login
    rw [h]
    cases net <;> rfl

/-- C6 witness: a store holding both a token and a user with an id;
the upload goes to the emergency endpoint with that id and no
Authorization header. -/
theorem C6_emergency_endpoints_witness :
    medicalService.storedUserIdE
        (setItem (setItem emptyStore JWT_STORAGE_KEY "tok123")
          USER_STORAGE_KEY "\x7b\"id\":\"u7\"\x7d") = Except.ok "u7" ∧
    (medicalService.analyzeImage ⟨"image/png", 4096⟩
        (setItem (setItem emptyStore JWT_STORAGE_KEY "tok123")
          USER_STORAGE_KEY "\x7b\"id\":\"u7\"\x7d")
        (Except.ok Json.null)).requests =
      [medicalService.analyzeRequest ⟨"image/png", 4096⟩ "u7"] :=
  ⟨by rfl,
    (C6_emergency_endpoints ⟨"image/png", 4096⟩
        (setItem (setItem emptyStore JWT_STORAGE_KEY "tok123")
          USER_STORAGE_KEY "\x7b\"id\":\"u7\"\x7d")
        (Except.ok Json.null) "a@b.co" "pw").1 "u7" (by rfl)⟩

/-- C7: when the fifteen-second delay promise wins the race in
LoginPage.handleSubmit, the handler stops waiting at fifteen seconds
(strictly before the login settles), reports the timeout rejection
message through its catch block, does not navigate — yet the login
request is not cancelled: its localStorage session writes still take
effect when the response arrives, exactly as in an un-raced login. -/
theorem C7_login_timeout_race (email password : String) (store : Store) (net : Except JsErr Json)
    (t : Nat) (h : emailRegexTest email = true) (ht : 15000 < t) :
    (LoginPage.handleSubmit email password store net t).error =
      "Login request timed out. Please try again." ∧
    (LoginPage.handleSubmit email password store net t).navigated = false ∧
    (LoginPage.handleSubmit email password store net t).finishedAt = 15000 ∧
    (LoginPage.handleSubmit email password store net t).finishedAt < t ∧
    (LoginPage.handleSubmit email password store net t).store =
      (authService.login email password store net).store ∧
    (∀ data, net = Except.ok data → jsTruthyOpt (data.getField "token") = true →
      (LoginPage.handleSubmit email password store net t).store JWT_STORAGE_KEY =
        some (jsStringOfOpt (data.getField "token"))) := by
  have hnr : ¬ t < 15000 := by omega
  have hsub : LoginPage.handleSubmit email password store net t =
      ⟨LoginPage.catchMsg (JsErr.errorObj "Login request timed out. Please try again."),
        false, 15000, (authService.login email password store net).store⟩ := by
    simp [LoginPage.handleSubmit, h, hnr]
  have hmsg : LoginPage.catchMsg (JsErr.errorObj "Login request timed out. Please try again.") =
      "Login request timed out. Please try again." := by
    decide
  refine ⟨by rw [hsub]; exact hmsg, by rw [hsub], by rw [hsub], by rw [hsub]; exact ht, by rw [hsub],
    fun data hnet htok => ?_⟩
  subst hnet
  rw [hsub]
  simp [authService.login, h, authService.loginStoreEffect, htok, setItem,
    jwt_ne_user_key, (Ne.symm jwt_ne_user_key)]

/-- C7 witness: a login that settles successfully at twenty seconds,
after the race was lost: the timeout message is shown and the token is
nevertheless in localStorage. -/
theorem C7_login_timeout_race_witness :
    emailRegexTest "a@b.co" = true ∧ 15000 < 20000 ∧
    (LoginPage.handleSubmit "a@b.co" "pw" emptyStore
        (Except.ok (Json.obj [("token", Json.str "tk"), ("user", Json.obj [])])) 20000).error =
      "Login request timed out. Please try again." ∧
    (LoginPage.handleSubmit "a@b.co" "pw" emptyStore
        (Except.ok (Json.obj [("token", Json.str "tk"), ("user", Json.obj [])])) 20000).store
        JWT_STORAGE_KEY =
      some (jsStringOfOpt ((Json.obj [("token", Json.str "tk"),
        ("user", Json.obj [])]).getField "token")) :=
  ⟨by decide, by decide,
    (C7_login_timeout_race "a@b.co" "pw" emptyStore
        (Except.ok (Json.obj [("token", Json.str "tk"), ("user", Json.obj [])])) 20000
        (by decide) (by decide)).1,
    (C7_login_timeout_race "a@b.co" "pw" emptyStore
        (Except.ok (Json.obj [("token", Json.str "tk"), ("user", Json.obj [])])) 20000
        (by decide) (by decide)).2.2.2.2.2
      (Json.obj [("token", Json.str "tk"), ("user", Json.obj [])]) rfl (by decide)⟩

/-- C9 counterexample: when the authenticated endpoint succeeds,
getHistory returns the response verbatim — here a response without any
analyses field — so the returned value does not always contain an
analyses array. -/
theorem C9_counterexample :
    (medicalService.getHistory emptyStore
        (Except.ok (Json.obj [("status", Json.str "ok")]))
        (Except.ok (Json.obj []))).2 = Json.obj [("status", Json.str "ok")] ∧
    Json.getField (Json.obj [("status", Json.str "ok")]) "analyses" = none :=
  ⟨rfl, rfl⟩

/-- C9 amended: getHistory is total (its result type has no error
case); it returns the authenticated response verbatim on success, the
emergency response verbatim when only the fallback succeeds, and when
everything fails the fixed error object — whose analyses field is the
empty array — instead of propagating the error. -/
theorem C9_getHistory_total (store : Store) (authNet emNet : Except JsErr Json) :
    (∀ data, authNet = Except.ok data →
      (medicalService.getHistory store authNet emNet).2 = data) ∧
    (∀ e uid data, authNet = Except.error e →
      medicalService.storedUserIdE store = Except.ok uid → emNet = Except.ok data →
      (medicalService.getHistory store authNet emNet).2 = data) ∧
    (∀ e uid e2, authNet = Except.error e →
      medicalService.storedUserIdE store = Except.ok uid → emNet = Except.error e2 →
      (medicalService.getHistory store authNet emNet).2 = medicalService.historyFallback e2) ∧
    (∀ e pe, authNet = Except.error e → medicalService.storedUserIdE store = Except.error pe →
      (medicalService.getHistory store authNet emNet).2 =
        medicalService.historyFallback (JsErr.errorObj pe)) ∧
    (∀ e, Json.getField (medicalService.historyFallback e) "analyses" =
      some (Json.arr [])) := by
  refine ⟨fun data hnet => ?_, fun e uid data hnet huid hem => ?_,
    fun e uid e2 hnet huid hem => ?_, fun e pe hnet hpe => ?_, fun e => rfl⟩
  · subst hnet
    rfl
  · subst hnet
    subst hem
    simp [medicalService.getHistory, huid]
  · subst hnet
    subst hem
    simp [medicalService.getHistory, huid]
  · subst hnet
    simp [medicalService.getHistory, hpe]

/-- C9 witness for the amended claim: both endpoints fail and the
fallback object with its empty analyses array is returned. -/
theorem C9_getHistory_total_witness :
    (medicalService.getHistory emptyStore
        (Except.error (JsErr.errorObj "Network error occurred"))
        (Except.error (JsErr.errorObj "Emergency history failed with status: 500"))).2 =
      medicalService.historyFallback
        (JsErr.errorObj "Emergency history failed with status: 500") :=
  (C9_getHistory_total emptyStore
      (Except.error (JsErr.errorObj "Network error occurred"))
      (Except.error (JsErr.errorObj "Emergency history failed with status: 500"))).2.2.1
    (JsErr.errorObj "Network error occurred") "test_user"
    (JsErr.errorObj "Emergency history failed with status: 500") rfl (by rfl) rfl
